import Mathlib

/-!
Verification development for the claims-intake service.

The definitions below are a shallow embedding of the repository
normalization / validation pipeline (`src/normalize.py`,
`src/schemas/claim.py`), the single-claim creation endpoints
(`src/api/claims.py`, `src/main.py`, `src/app/main.py`), the bulk CSV
loader (`src/init_db.py`) and the top-providers aggregation query.

Modelling conventions:
* Monetary amounts flowing through the API paths are 2-decimal
  `Numeric(10,2)` values and are modelled in integer cents; free-form
  monetary text parsed by the normalizer is modelled as an exact scaled
  decimal.  The `astype(str)`/`float()` round trip that
  `normalize_monetary_fields` performs on values that are already
  numeric is the identity and is modelled as such.
* Strings are modelled over their character lists; `str.upper`,
  `str.strip`, `\d` and `\w` are modelled on the ASCII range, which is
  the range exercised by the data this service handles.
* Fallible Python code (raising `ValueError` / `KeyError` /
  `HTTPException`) is modelled with `Except`.
-/

namespace Claims

/-- Whitespace characters recognized by Python `str.strip` and `\s`
(ASCII range). -/
def isWsChar (c : Char) : Bool :=
  c = ' ' ∨ c = '\t' ∨ c = '\n' ∨ c = '\r' ∨ c = '\x0b' ∨ c = '\x0c'

/-- Drop leading and trailing whitespace from a character list, the
model of Python `str.strip()`. -/
def stripChars (l : List Char) : List Char :=
  ((l.dropWhile isWsChar).reverse.dropWhile isWsChar).reverse

/-- Upper-case one character (`str.upper` on the ASCII range); this is
exactly the arithmetic of CPython for basic latin letters. -/
def upChar (c : Char) : Char := c.toUpper

/-- Lower-case one character (`str.lower` on the ASCII range). -/
def lowChar (c : Char) : Char := c.toLower

/-- Upper-case a character list. -/
def upStr (l : List Char) : List Char := l.map upChar

/-- Decimal digit test, the model of the regex class `\d`. -/
def isDigitCh (c : Char) : Bool := '0' ≤ c ∧ c ≤ '9'

/-- Word-character test, the model of the regex class `\w`. -/
def isWordCh (c : Char) : Bool :=
  isDigitCh c ∨ ('a' ≤ c ∧ c ≤ 'z') ∨ ('A' ≤ c ∧ c ≤ 'Z') ∨ c = '_'

/-- Numeric value of a decimal digit character. -/
def digitVal (c : Char) : Nat := c.toNat - 48

/-- Value of a digit string read most-significant first. -/
def natOfDigits (l : List Char) : Nat :=
  l.foldl (fun a c => a * 10 + digitVal c) 0

/-! ### Dates and `strptime`

`datetime.strptime` compiles each format into a regex (CPython
`_strptime.TimeRE`), takes the backtracking-preferred prefix match,
rejects the string if unconverted data remains, and finally builds a
`datetime`, which validates the calendar day.  The token parsers below
return the candidate matches of the corresponding regex fragment in
backtracking order, and a format parser keeps the first candidate of
the whole sequence, mirroring the regex engine. -/

/-- A calendar date as produced by `datetime.date`. -/
structure PyDate where
  year : Nat
  month : Nat
  day : Nat
deriving DecidableEq, Repr

/-- Gregorian leap-year rule used by `datetime`. -/
def isLeap (y : Nat) : Bool := y % 4 = 0 ∧ (y % 100 ≠ 0 ∨ y % 400 = 0)

/-- Number of days in a month, as enforced by the `datetime`
constructor. -/
def daysInMonth (y m : Nat) : Nat :=
  if m = 2 then (if isLeap y then 29 else 28)
  else if m = 4 ∨ m = 6 ∨ m = 9 ∨ m = 11 then 30 else 31

/-- Candidates of the `%m` fragment `(1[0-2]|0[1-9]|[1-9])`. -/
def pMonth (s : List Char) : List (Nat × List Char) :=
  (match s with
   | '1' :: c :: r => if '0' ≤ c ∧ c ≤ '2' then [(10 + digitVal c, r)] else []
   | _ => []) ++
  (match s with
   | '0' :: c :: r => if '1' ≤ c ∧ c ≤ '9' then [(digitVal c, r)] else []
   | _ => []) ++
  (match s with
   | c :: r => if '1' ≤ c ∧ c ≤ '9' then [(digitVal c, r)] else []
   | _ => [])

/-- Candidates of the `%d` fragment `(3[01]|[12]\d|0[1-9]|[1-9])`. -/
def pDay (s : List Char) : List (Nat × List Char) :=
  (match s with
   | '3' :: c :: r => if c = '0' ∨ c = '1' then [(30 + digitVal c, r)] else []
   | _ => []) ++
  (match s with
   | c :: d :: r =>
     if (c = '1' ∨ c = '2') ∧ isDigitCh d then
       [(digitVal c * 10 + digitVal d, r)] else []
   | _ => []) ++
  (match s with
   | '0' :: c :: r => if '1' ≤ c ∧ c ≤ '9' then [(digitVal c, r)] else []
   | _ => []) ++
  (match s with
   | c :: r => if '1' ≤ c ∧ c ≤ '9' then [(digitVal c, r)] else []
   | _ => [])

/-- Candidates of the `%y` fragment `\d\d` (exactly two digits). -/
def pYear2 (s : List Char) : List (Nat × List Char) :=
  match s with
  | a :: b :: r =>
    if isDigitCh a ∧ isDigitCh b then [(digitVal a * 10 + digitVal b, r)] else []
  | _ => []

/-- Candidates of the `%Y` fragment `\d\d\d\d` (exactly four digits). -/
def pYear4 (s : List Char) : List (Nat × List Char) :=
  match s with
  | a :: b :: c :: d :: r =>
    if isDigitCh a ∧ isDigitCh b ∧ isDigitCh c ∧ isDigitCh d then
      [(digitVal a * 1000 + digitVal b * 100 + digitVal c * 10 + digitVal d, r)]
    else []
  | _ => []

/-- Candidates of the `%H` fragment `(2[0-3]|[0-1]\d|\d)`. -/
def pHour (s : List Char) : List (Nat × List Char) :=
  (match s with
   | '2' :: c :: r => if '0' ≤ c ∧ c ≤ '3' then [(20 + digitVal c, r)] else []
   | _ => []) ++
  (match s with
   | c :: d :: r =>
     if (c = '0' ∨ c = '1') ∧ isDigitCh d then
       [(digitVal c * 10 + digitVal d, r)] else []
   | _ => []) ++
  (match s with
   | c :: r => if isDigitCh c then [(digitVal c, r)] else []
   | _ => [])

/-- Candidates of the `%M` fragment `([0-5]\d|\d)`. -/
def pMinute (s : List Char) : List (Nat × List Char) :=
  (match s with
   | c :: d :: r =>
     if ('0' ≤ c ∧ c ≤ '5') ∧ isDigitCh d then
       [(digitVal c * 10 + digitVal d, r)] else []
   | _ => []) ++
  (match s with
   | c :: r => if isDigitCh c then [(digitVal c, r)] else []
   | _ => [])

/-- Candidate for a literal character in the format. -/
def pLit (c : Char) (s : List Char) : List (Nat × List Char) :=
  match s with
  | c' :: r => if c' = c then [(0, r)] else []
  | _ => []

/-- Candidates of the `\s+` fragment produced for whitespace in the
format, greedy (longest first). -/
def pWs (s : List Char) : List (Nat × List Char) :=
  let n := (s.takeWhile isWsChar).length
  (List.range n).map (fun k => (0, s.drop (n - k)))

/-- All token-sequence matches of the `%m/%d/%y %H:%M` regex over the
input, in backtracking order; each element carries the captured fields
and the unconsumed rest. -/
def runMDYHM (s : List Char) : List ((Nat × Nat × Nat × Nat × Nat) × List Char) :=
  (pMonth s).flatMap fun mo =>
  (pLit '/' mo.2).flatMap fun l1 =>
  (pDay l1.2).flatMap fun dy =>
  (pLit '/' dy.2).flatMap fun l2 =>
  (pYear2 l2.2).flatMap fun yr =>
  (pWs yr.2).flatMap fun w =>
  (pHour w.2).flatMap fun hh =>
  (pLit ':' hh.2).flatMap fun l3 =>
  (pMinute l3.2).map fun mi =>
  ((mo.1, dy.1, yr.1, hh.1, mi.1), mi.2)

/-- Mapping of `%y` two-digit years used by `strptime` (69..99 map to
19xx, 0..68 to 20xx). -/
def expandY2 (y : Nat) : Nat := if y ≤ 68 then 2000 + y else 1900 + y

/-- Build a date after a successful regex match, performing the
calendar validation done by the `datetime` constructor. -/
def mkDate (y m d : Nat) : Option PyDate :=
  if 1 ≤ y ∧ y ≤ 9999 ∧ d ≤ daysInMonth y m then some ⟨y, m, d⟩ else none

/-- Model of `datetime.strptime(s, "%m/%d/%y %H:%M").date()`, returning
`none` where Python raises `ValueError`. -/
def strptimeMDYHM (s : String) : Option PyDate :=
  match (runMDYHM s.toList).head? with
  | some (v, []) => mkDate (expandY2 v.2.2.1) v.1 v.2.1
  | _ => none

/-- All token-sequence matches of the `%Y-%m-%d` regex. -/
def runYMD (s : List Char) : List ((Nat × Nat × Nat) × List Char) :=
  (pYear4 s).flatMap fun yr =>
  (pLit '-' yr.2).flatMap fun l1 =>
  (pMonth l1.2).flatMap fun mo =>
  (pLit '-' mo.2).flatMap fun l2 =>
  (pDay l2.2).map fun dy =>
  ((yr.1, mo.1, dy.1), dy.2)

/-- Model of `datetime.strptime(s, "%Y-%m-%d").date()`. -/
def strptimeYMD (s : String) : Option PyDate :=
  match (runYMD s.toList).head? with
  | some (v, []) => mkDate v.1 v.2.1 v.2.2
  | _ => none

/-- All token-sequence matches of the `%m/%d/%Y` regex. -/
def runMDY4 (s : List Char) : List ((Nat × Nat × Nat) × List Char) :=
  (pMonth s).flatMap fun mo =>
  (pLit '/' mo.2).flatMap fun l1 =>
  (pDay l1.2).flatMap fun dy =>
  (pLit '/' dy.2).flatMap fun l2 =>
  (pYear4 l2.2).map fun yr =>
  ((mo.1, dy.1, yr.1), yr.2)

/-- Model of `datetime.strptime(s, "%m/%d/%Y").date()`. -/
def strptimeMDY4 (s : String) : Option PyDate :=
  match (runMDY4 s.toList).head? with
  | some (v, []) => mkDate v.2.2 v.1 v.2.1
  | _ => none

/-- Model of `ClaimCreate.parse_service_date` from `src/schemas/claim.py`:
try `%m/%d/%y %H:%M`, then `%Y-%m-%d`, then `%m/%d/%Y`, returning the
first success; raise `ValueError` when all fail. -/
def parse_service_date (v : String) : Except String PyDate :=
  match strptimeMDYHM v with
  | some d => .ok d
  | none =>
    match strptimeYMD v with
    | some d => .ok d
    | none =>
      match strptimeMDY4 v with
      | some d => .ok d
      | none => .error "Invalid service_date format"

/-- Model of `ClaimCreate.parse_custom_date` from `src/main.py`: only
the `%m/%d/%y %H:%M` format is accepted. -/
def parse_custom_date (v : String) : Except String PyDate :=
  match strptimeMDYHM v with
  | some d => .ok d
  | none =>
    .error "service_date must be in the format MM/DD/YY HH:MM"

/-! ### Field normalizers from `src/normalize.py` -/

/-- Model of `clean_npi` from `src/normalize.py`: strip every non-digit
character, then require exactly 10 digits; on failure raise
`ValueError(f"Invalid NPI: {npi}")` naming the raw value. -/
def clean_npi (npi : String) : Except String String :=
  let cleaned := npi.toList.filter isDigitCh
  if cleaned.length = 10 then .ok (String.mk cleaned)
  else .error ("Invalid NPI: " ++ npi)

/-- Model of `validate_procedure_code` from `src/normalize.py`: strip
and upper-case the code, then require that it starts with letter D. -/
def validate_procedure_code (code : String) : Except String String :=
  let c := upStr (stripChars code.toList)
  if c.head? = some 'D' then .ok (String.mk c)
  else .error ("Invalid procedure code: " ++ String.mk c)

/-- The header alias table `COLUMN_MAP` from `src/normalize.py`. -/
def COLUMN_MAP : List (String × String) :=
  [("service_date", "service_date"),
   ("submitted_procedure", "submitted_procedure"),
   ("plan/group_#", "plan_group"),
   ("subscriber#", "subscriber_id"),
   ("provider_npi", "provider_npi"),
   ("provider_fees", "provider_fees"),
   ("allowed_fees", "allowed_fees"),
   ("member_coinsurance", "member_coinsurance"),
   ("member_copay", "member_copay"),
   ("quadrant", "quadrant")]

/-- The canonical required columns `REQUIRED_COLUMNS` from
`src/normalize.py` (the values of `COLUMN_MAP`). -/
def REQUIRED_COLUMNS : List String := COLUMN_MAP.map Prod.snd

/-- Strip, lower-case and underscore-join one raw header, the per-column
step of `normalize_headers` (also used verbatim in `src/init_db.py`). -/
def normalize_header (h : String) : String :=
  String.mk (((stripChars h.toList).map lowChar).map
    (fun c => if c = ' ' then '_' else c))

/-- Apply the alias table to one normalized header; unrecognized headers
pass through unchanged (`df.rename` semantics). -/
def renameCol (m : List (String × String)) (h : String) : String :=
  match m.lookup h with
  | some v => v
  | none => h

/-- Model of `normalize_headers` from `src/normalize.py` applied to the
list of column names. -/
def normalize_headers (hs : List String) : List String :=
  hs.map (fun h => renameCol COLUMN_MAP (normalize_header h))

/-- Model of `check_required_columns` from `src/normalize.py`: collect
every canonical column absent from the frame and raise a single
`KeyError` listing all of them. -/
def check_required_columns (cols : List String) : Except (List String) Unit :=
  let missing := REQUIRED_COLUMNS.filter (fun c => ¬ cols.contains c)
  if missing.isEmpty then .ok () else .error missing

/-! ### Python `float()` on finite decimal literals

`normalize_monetary_fields` ends with `astype(float)`.  The parser
below models `float()` on finite decimal literals (optional sign,
integer and fractional digits, optional exponent, surrounding
whitespace); the special literals `inf`/`nan` and digit underscores are
outside the vocabulary of this data and are not modelled.  A parsed
value is kept as an exact scaled decimal `mant / 10 ^ scale` so that
every definition in this file evaluates inside the kernel. -/

/-- An exact decimal value `mant / 10 ^ scale`. -/
structure FloatVal where
  mant : Int
  scale : Nat
deriving DecidableEq, Repr

/-- The rational number denoted by a `FloatVal`. -/
def FloatVal.toRat (v : FloatVal) : ℚ := (v.mant : ℚ) / (10 : ℚ) ^ v.scale

/-- Parse a non-empty all-digit string. -/
def parseDigitsAll (l : List Char) : Option Nat :=
  if ¬ l.isEmpty ∧ l.all isDigitCh then some (natOfDigits l) else none

/-- Parse an optionally signed exponent consuming the whole input. -/
def parseExp (l : List Char) : Option Int :=
  match l with
  | '+' :: r => (parseDigitsAll r).map Int.ofNat
  | '-' :: r => (parseDigitsAll r).map (fun n => -(n : Int))
  | r => (parseDigitsAll r).map Int.ofNat

/-- Scale a decimal value by `10 ^ e`. -/
def applyExp (v : FloatVal) (e : Int) : FloatVal :=
  if 0 ≤ e then ⟨v.mant * (10 : Int) ^ e.toNat, v.scale⟩
  else ⟨v.mant, v.scale + (-e).toNat⟩

/-- Parse the unsigned part of a float literal. -/
def parseFloatCore (l : List Char) : Option FloatVal :=
  let ip := l.takeWhile isDigitCh
  let r1 := l.dropWhile isDigitCh
  match r1 with
  | [] => if ip.isEmpty then none else some ⟨(natOfDigits ip : Int), 0⟩
  | '.' :: r2 =>
    let fp := r2.takeWhile isDigitCh
    let r3 := r2.dropWhile isDigitCh
    if ip.isEmpty ∧ fp.isEmpty then none
    else
      let base : FloatVal :=
        ⟨(natOfDigits ip : Int) * (10 : Int) ^ fp.length + (natOfDigits fp : Int),
         fp.length⟩
      match r3 with
      | [] => some base
      | 'e' :: r4 => (parseExp r4).map (applyExp base)
      | 'E' :: r4 => (parseExp r4).map (applyExp base)
      | _ => none
  | 'e' :: r4 =>
    if ip.isEmpty then none
    else (parseExp r4).map (applyExp ⟨(natOfDigits ip : Int), 0⟩)
  | 'E' :: r4 =>
    if ip.isEmpty then none
    else (parseExp r4).map (applyExp ⟨(natOfDigits ip : Int), 0⟩)
  | _ => none

/-- Model of Python `float(s)` on finite decimal literals, returning
`none` where Python raises `ValueError`. -/
def parse_float (s : String) : Option FloatVal :=
  match stripChars s.toList with
  | '+' :: r => parseFloatCore r
  | '-' :: r => (parseFloatCore r).map (fun v => ⟨-v.mant, v.scale⟩)
  | r => parseFloatCore r

/-- Remove every dollar sign and comma, the model of
`.replace({r"\$": "", ",": ""}, regex=True)` on one cell. -/
def stripMoneyChars (s : String) : String :=
  String.mk (s.toList.filter (fun c => ¬ (c = '$' ∨ c = ',')))

/-- Model of `normalize_monetary_fields` from `src/normalize.py` on a
single cell.  A missing value (pandas `NaN`) becomes the string `"nan"`
under `astype(str)` and is modelled as `none`; after symbol stripping
the exact value `"nan"` is replaced by `"0"`; finally the text is
parsed as a float, raising `ValueError` when it is not numeric. -/
def normalize_monetary (cell : Option String) : Except String FloatVal :=
  let s0 := match cell with
    | none => "nan"
    | some s => s
  let s1 := stripMoneyChars s0
  let s2 := if s1 = "nan" then "0" else s1
  match parse_float s2 with
  | some v => .ok v
  | none => .error ("could not convert string to float: " ++ s2)

/-! ### The single-claim API path

`src/api/claims.py` runs the request body through the pydantic schema
`ClaimCreate` (`src/schemas/claim.py`), then inside a `try` block runs
`normalize_claim_dict`, rejects a negative net fee, and inserts the
record; every exception raised inside the `try` block is re-raised as
`HTTPException(400, str(e))`.  A pydantic validation failure happens
before the handler and surfaces as a 422 response. -/

/-- A raw single-claim request body.  `quadrant` distinguishes an
absent key (`none`) from an explicit `null` (`some none`).  Monetary
amounts are in cents. -/
structure RawClaim where
  service_date : String
  submitted_procedure : String
  quadrant : Option (Option String)
  plan_group : String
  subscriber_id : Int
  provider_npi : Int
  provider_fees : Int
  allowed_fees : Int
  member_coinsurance : Int
  member_copay : Int
deriving DecidableEq, Repr

/-- The pydantic pattern `^D\w+` from
`submitted_procedure: constr(pattern=r"^D\w+")`: a literal capital `D`
followed by at least one word character, matched at the start of the
raw value. -/
def matchesProcPat (s : String) : Bool :=
  match s.toList with
  | 'D' :: c :: _ => isWordCh c
  | _ => false

/-- A claim after pydantic validation (`ClaimCreate.model_dump()`). -/
structure ParsedClaim where
  service_date : PyDate
  submitted_procedure : String
  quadrant : Option String
  plan_group : String
  subscriber_id : Int
  provider_npi : Int
  provider_fees : Int
  allowed_fees : Int
  member_coinsurance : Int
  member_copay : Int
deriving DecidableEq, Repr

/-- Model of the `ClaimCreate` schema of `src/schemas/claim.py`:
`service_date` parsed through `parse_service_date`; `submitted_procedure`
must match `^D\w+`; `quadrant` is `Optional[str]`, which in pydantic v2
is a required but nullable field; `provider_npi` is
`conint(ge=1000000000, le=9999999999)`; all four fees are
`confloat(ge=0)`. -/
def pydantic_validate (r : RawClaim) : Except String ParsedClaim :=
  match parse_service_date r.service_date with
  | .error m => .error m
  | .ok d =>
    if ¬ matchesProcPat r.submitted_procedure then
      .error "String should match pattern ^D\\w+"
    else
      match r.quadrant with
      | none => .error "Field required: quadrant"
      | some q =>
        if r.provider_npi < 1000000000 ∨ 9999999999 < r.provider_npi then
          .error "Input should be a valid 10-digit provider NPI"
        else if r.provider_fees < 0 ∨ r.allowed_fees < 0 ∨
            r.member_coinsurance < 0 ∨ r.member_copay < 0 then
          .error "Input should be greater than or equal to 0"
        else
          .ok { service_date := d,
                submitted_procedure := r.submitted_procedure,
                quadrant := q,
                plan_group := r.plan_group,
                subscriber_id := r.subscriber_id,
                provider_npi := r.provider_npi,
                provider_fees := r.provider_fees,
                allowed_fees := r.allowed_fees,
                member_coinsurance := r.member_coinsurance,
                member_copay := r.member_copay }

/-- The normalized claim produced by `normalize_claim_dict`, ready for
`Claim(**cleaned)`. -/
structure CleanedClaim where
  service_date : PyDate
  submitted_procedure : String
  quadrant : String
  plan_group : String
  subscriber_id : Int
  provider_npi : Int
  provider_fees : Int
  allowed_fees : Int
  member_coinsurance : Int
  member_copay : Int
  net_fee : Int
deriving DecidableEq, Repr

/-- Model of `normalize_claim_dict` from `src/normalize.py` on the
dictionary produced by `ClaimCreate.model_dump()`.  The monetary pass
(`normalize_monetary_fields`) round-trips the already-numeric fee
values and is the identity here; then, in source order,
`normalize_field_values` computes `net_fee`, passes the already-parsed
`service_date` through, upper-cases and validates the procedure code,
cleans the NPI and coerces it back to an integer, and defaults a null
`quadrant` to the empty string. -/
def normalize_claim_dict (p : ParsedClaim) : Except String CleanedClaim :=
  let net := p.provider_fees + p.member_coinsurance + p.member_copay - p.allowed_fees
  match validate_procedure_code (String.mk (upStr p.submitted_procedure.toList)) with
  | .error m => .error m
  | .ok proc =>
    match clean_npi (toString p.provider_npi) with
    | .error m => .error m
    | .ok npi =>
      .ok { service_date := p.service_date,
            submitted_procedure := proc,
            quadrant := (match p.quadrant with
              | none => ""
              | some q => q),
            plan_group := p.plan_group,
            subscriber_id := p.subscriber_id,
            provider_npi := (natOfDigits npi.toList : Int),
            provider_fees := p.provider_fees,
            allowed_fees := p.allowed_fees,
            member_coinsurance := p.member_coinsurance,
            member_copay := p.member_copay,
            net_fee := net }

/-- A row of the `claims` table (`src/db/models.py`). -/
structure StoredClaim where
  id : Nat
  service_date : PyDate
  submitted_procedure : String
  quadrant : String
  plan_group : String
  subscriber_id : Int
  provider_npi : Int
  provider_fees : Int
  allowed_fees : Int
  member_coinsurance : Int
  member_copay : Int
  net_fee : Int
deriving DecidableEq, Repr

/-- Materialize `Claim(**cleaned)` with the id generated at insert. -/
def mkStored (id : Nat) (c : CleanedClaim) : StoredClaim :=
  { id := id,
    service_date := c.service_date,
    submitted_procedure := c.submitted_procedure,
    quadrant := c.quadrant,
    plan_group := c.plan_group,
    subscriber_id := c.subscriber_id,
    provider_npi := c.provider_npi,
    provider_fees := c.provider_fees,
    allowed_fees := c.allowed_fees,
    member_coinsurance := c.member_coinsurance,
    member_copay := c.member_copay,
    net_fee := c.net_fee }

/-- Python exceptions that can be raised inside the handler body. -/
inductive PyExc where
  | valueErr (msg : String)
  | httpErr (status : Nat) (detail : String)
deriving DecidableEq, Repr

/-- Model of `str(e)`: a `ValueError` prints its message, a starlette
`HTTPException` prints `"{status}: {detail}"`. -/
def strOfExc : PyExc → String
  | .valueErr m => m
  | .httpErr st d => toString st ++ ": " ++ d

/-- Model of the body of `create_claim` in `src/api/claims.py` (the
code inside `try`/`except`), given the session store and the parsed
request.  `dbFail` injects the outcome of `session.commit()`: `some m`
means the commit raised an exception with message `m` (the transaction
rolls back, the store is unchanged).  Every exception raised inside
the `try` block is surfaced as `HTTPException(400, str(e))`. -/
def create_claim_handler (store : List StoredClaim) (p : ParsedClaim)
    (dbFail : Option String) : List StoredClaim × Except (Nat × String) StoredClaim :=
  match normalize_claim_dict p with
  | .error m => (store, .error (400, strOfExc (.valueErr m)))
  | .ok c =>
    if c.net_fee < 0 then
      (store, .error (400, strOfExc (.httpErr 400 "Net fee cannot be negative")))
    else
      match dbFail with
      | some m => (store, .error (400, strOfExc (.valueErr m)))
      | none =>
        let s := mkStored (store.length + 1) c
        (store ++ [s], .ok s)

/-- Model of `POST /claims` on the `src/api/claims.py` path: pydantic
validation (a failure is a 422 response produced by FastAPI before the
handler runs), then the handler body. -/
def create_claim (store : List StoredClaim) (r : RawClaim)
    (dbFail : Option String) : List StoredClaim × Except (Nat × String) StoredClaim :=
  match pydantic_validate r with
  | .error m => (store, .error (422, m))
  | .ok p => create_claim_handler store p dbFail

/-! ### The `src/main.py` revision of the single-claim path -/

/-- A raw request body for the `src/main.py` `ClaimCreate` schema: all
ten fields required, `quadrant` a plain string. -/
structure MainRawClaim where
  service_date : String
  submitted_procedure : String
  quadrant : String
  plan_group : String
  subscriber_id : Int
  provider_npi : Int
  provider_fees : Int
  allowed_fees : Int
  member_coinsurance : Int
  member_copay : Int
deriving DecidableEq, Repr

/-- A `src/main.py` claim after pydantic validation. -/
structure MainParsedClaim where
  service_date : PyDate
  submitted_procedure : String
  quadrant : String
  plan_group : String
  subscriber_id : Int
  provider_npi : Int
  provider_fees : Int
  allowed_fees : Int
  member_coinsurance : Int
  member_copay : Int
deriving DecidableEq, Repr

/-- Model of the `src/main.py` `ClaimCreate` validators: `service_date`
through `parse_custom_date` (only `%m/%d/%y %H:%M`),
`submitted_procedure` must start with a literal `D` (no upper-casing),
`provider_npi` must lie in the 10-digit range.  The fee fields carry no
constraint in this revision. -/
def main_pydantic_validate (r : MainRawClaim) : Except String MainParsedClaim :=
  match parse_custom_date r.service_date with
  | .error m => .error m
  | .ok d =>
    match r.submitted_procedure.toList with
    | 'D' :: _ =>
      if r.provider_npi < 1000000000 ∨ 9999999999 < r.provider_npi then
        .error "Provider NPI must be a valid 10-digit number."
      else
        .ok { service_date := d,
              submitted_procedure := r.submitted_procedure,
              quadrant := r.quadrant,
              plan_group := r.plan_group,
              subscriber_id := r.subscriber_id,
              provider_npi := r.provider_npi,
              provider_fees := r.provider_fees,
              allowed_fees := r.allowed_fees,
              member_coinsurance := r.member_coinsurance,
              member_copay := r.member_copay }
    | _ => .error "Submitted procedure must start with the letter D."

/-- Model of `POST /claims` in `src/main.py`: compute
`net_fee = provider_fees + member_coinsurance + member_copay - allowed_fees`,
reject a negative value with a 400, otherwise insert the claim object
with the request fields stored as validated. -/
def main_create_claim (store : List StoredClaim) (r : MainRawClaim) :
    List StoredClaim × Except (Nat × String) StoredClaim :=
  match main_pydantic_validate r with
  | .error m => (store, .error (422, m))
  | .ok p =>
    let net := p.provider_fees + p.member_coinsurance + p.member_copay - p.allowed_fees
    if net < 0 then
      (store, .error (400, "Calculated net fee cannot be negative"))
    else
      let s : StoredClaim :=
        { id := store.length + 1,
          service_date := p.service_date,
          submitted_procedure := p.submitted_procedure,
          quadrant := p.quadrant,
          plan_group := p.plan_group,
          subscriber_id := p.subscriber_id,
          provider_npi := p.provider_npi,
          provider_fees := p.provider_fees,
          allowed_fees := p.allowed_fees,
          member_coinsurance := p.member_coinsurance,
          member_copay := p.member_copay,
          net_fee := net }
      (store ++ [s], .ok s)

/-! ### The `src/app/main.py` revision of the single-claim path -/

/-- The request body of the `src/app/main.py` `ClaimCreate` schema:
six fields, no validators at all. -/
structure AppRawClaim where
  provider_npi : String
  submitted_procedure : String
  allowed_fees : Int
  provider_fees : Int
  member_coinsurance : Int
  member_copay : Int
deriving DecidableEq, Repr

/-- A row of the `claims` table as declared in `src/app/main.py` (the
`created_at` column is never assigned and is omitted). -/
structure AppStoredClaim where
  id : Nat
  provider_npi : String
  submitted_procedure : String
  allowed_fees : Int
  provider_fees : Int
  member_coinsurance : Int
  member_copay : Int
  net_fee : Int
deriving DecidableEq, Repr

/-- Model of `POST /claims/` in `src/app/main.py`: no validation and no
net-fee sign check; the row is inserted with
`net_fee = allowed_fees - provider_fees`. -/
def app_create_claim (store : List AppStoredClaim) (c : AppRawClaim) :
    List AppStoredClaim × Except (Nat × String) AppStoredClaim :=
  let s : AppStoredClaim :=
    { id := store.length + 1,
      provider_npi := c.provider_npi,
      submitted_procedure := c.submitted_procedure,
      allowed_fees := c.allowed_fees,
      provider_fees := c.provider_fees,
      member_coinsurance := c.member_coinsurance,
      member_copay := c.member_copay,
      net_fee := c.allowed_fees - c.provider_fees }
  (store ++ [s], .ok s)

/-! ### The bulk CSV loader (`src/init_db.py`) -/

/-- The header rename map of `src/init_db.py` (no `quadrant` entry;
that name is already canonical). -/
def COLUMN_MAP_INIT : List (String × String) :=
  [("service_date", "service_date"),
   ("submitted_procedure", "submitted_procedure"),
   ("plan/group_#", "plan_group"),
   ("subscriber#", "subscriber_id"),
   ("provider_npi", "provider_npi"),
   ("provider_fees", "provider_fees"),
   ("allowed_fees", "allowed_fees"),
   ("member_coinsurance", "member_coinsurance"),
   ("member_copay", "member_copay")]

/-- The required-column list of `src/init_db.py`, in source order. -/
def REQUIRED_COLUMNS_INIT : List String :=
  ["service_date", "subscriber_id", "provider_npi", "submitted_procedure",
   "plan_group", "quadrant", "provider_fees", "allowed_fees",
   "member_coinsurance", "member_copay"]

/-- Errors aborting the bulk load: the aggregated `KeyError` of the
required-column check, or a `ValueError` from a value conversion. -/
inductive BulkError where
  | keyErr (missing : List String)
  | valueErr (msg : String)
deriving DecidableEq, Repr

/-- Message text of the aggregated `KeyError` raised by
`initialize_data`; it lists every missing column. -/
def bulkKeyErrMsg (missing : List String) : String :=
  "Required column(s) missing from the CSV file: " ++ toString missing

/-- A row inserted by the bulk loader.  The loader performs no NPI
cleaning and no procedure validation; a missing monetary cell stays
`NaN` (`none`), and `net_fee` propagates `NaN`. -/
structure BulkStored where
  service_date : Option PyDate
  subscriber_id : Int
  provider_npi : Int
  submitted_procedure : Option String
  quadrant : String
  plan_group : String
  provider_fees : Option FloatVal
  allowed_fees : Option FloatVal
  member_coinsurance : Option FloatVal
  member_copay : Option FloatVal
  net_fee : Option FloatVal
deriving DecidableEq, Repr

/-- Exact addition of scaled decimals. -/
def fvAdd (a b : FloatVal) : FloatVal :=
  ⟨a.mant * (10 : Int) ^ b.scale + b.mant * (10 : Int) ^ a.scale, a.scale + b.scale⟩

/-- Exact subtraction of scaled decimals. -/
def fvSub (a b : FloatVal) : FloatVal := fvAdd a ⟨-b.mant, b.scale⟩

/-- Addition propagating `NaN`, the pandas column arithmetic. -/
def oAdd (a b : Option FloatVal) : Option FloatVal :=
  match a, b with
  | some x, some y => some (fvAdd x y)
  | _, _ => none

/-- Subtraction propagating `NaN`. -/
def oSub (a b : Option FloatVal) : Option FloatVal :=
  match a, b with
  | some x, some y => some (fvSub x y)
  | _, _ => none

/-- Cell of column `c` in a positional row, after header renaming. -/
def getCol (renamed : List String) (row : List (Option String)) (c : String) :
    Option String :=
  match renamed.findIdx? (fun h => h = c) with
  | some i => (row.get? i).join
  | none => none

/-- Monetary conversion of `src/init_db.py`
(`.replace({r"\$": "", ",": ""}, regex=True).astype(float)`): unlike
`normalize_monetary_fields` there is no `nan` replacement, so a missing
cell stays `NaN`. -/
def init_money (cell : Option String) : Except String (Option FloatVal) :=
  match cell with
  | none => .ok none
  | some s =>
    match parse_float (stripMoneyChars s) with
    | some v => .ok (some v)
    | none => .error ("could not convert string to float: " ++ stripMoneyChars s)

/-- Model of Python `int(s)` on an integer literal with optional sign
and surrounding whitespace. -/
def parseIntStr (s : String) : Option Int :=
  match stripChars s.toList with
  | '-' :: r => (parseDigitsAll r).map (fun n => -(n : Int))
  | '+' :: r => (parseDigitsAll r).map Int.ofNat
  | r => (parseDigitsAll r).map Int.ofNat

/-- The `astype("int64")` conversion of an id cell. -/
def init_int (cell : Option String) : Except String Int :=
  match cell with
  | none => .error "cannot convert NaN to integer"
  | some s =>
    match parseIntStr s with
    | some n => .ok n
    | none => .error ("invalid literal for int: " ++ s)

/-- Transformation of one CSV row by `initialize_data` (Step 5 of
`src/init_db.py`): monetary cleanup, `net_fee` computation, coerced
`service_date` (an unparseable date becomes `NaT`), `quadrant` filled
with the empty string, `plan_group` stringified, ids coerced to
integers.  The loader applies no NPI or procedure validation. -/
def transformRow (renamed : List String) (row : List (Option String)) :
    Except BulkError BulkStored :=
  match init_money (getCol renamed row "provider_fees") with
  | .error m => .error (.valueErr m)
  | .ok pf =>
    match init_money (getCol renamed row "allowed_fees") with
    | .error m => .error (.valueErr m)
    | .ok af =>
      match init_money (getCol renamed row "member_coinsurance") with
      | .error m => .error (.valueErr m)
      | .ok mc =>
        match init_money (getCol renamed row "member_copay") with
        | .error m => .error (.valueErr m)
        | .ok mcp =>
          match init_int (getCol renamed row "subscriber_id") with
          | .error m => .error (.valueErr m)
          | .ok sid =>
            match init_int (getCol renamed row "provider_npi") with
            | .error m => .error (.valueErr m)
            | .ok npi =>
              .ok { service_date :=
                      (match getCol renamed row "service_date" with
                       | none => none
                       | some s => strptimeMDYHM s),
                    subscriber_id := sid,
                    provider_npi := npi,
                    submitted_procedure := getCol renamed row "submitted_procedure",
                    quadrant := (getCol renamed row "quadrant").getD "",
                    plan_group := (getCol renamed row "plan_group").getD "nan",
                    provider_fees := pf,
                    allowed_fees := af,
                    member_coinsurance := mc,
                    member_copay := mcp,
                    net_fee := oSub (oAdd (oAdd pf mc) mcp) af }

/-- The normalized-and-renamed header list of `src/init_db.py`
(Steps 2 and 3). -/
def renamedHeaders (headers : List String) : List String :=
  headers.map (fun h => renameCol COLUMN_MAP_INIT (normalize_header h))

/-- The canonical columns absent after header mapping (Step 4 of
`src/init_db.py`). -/
def missingCols (headers : List String) : List String :=
  REQUIRED_COLUMNS_INIT.filter (fun c => ¬ (renamedHeaders headers).contains c)

/-- Model of `initialize_data` from `src/init_db.py` after the schema
reset: normalize and rename the headers, check the required columns —
aborting with a single `KeyError` naming every missing column — then
transform and insert every row.  An error anywhere inserts nothing. -/
def initialize_data (headers : List String) (rows : List (List (Option String))) :
    Except BulkError (List BulkStored) :=
  if ¬ (missingCols headers).isEmpty then .error (.keyErr (missingCols headers))
  else rows.mapM (transformRow (renamedHeaders headers))

/-! ### The top-providers aggregation query -/

/-- Total net fee of one provider over the claim set, the
`func.sum(Claim.net_fee)` aggregate of the `GROUP BY` query. -/
def totalNetFee (claims : List StoredClaim) (npi : Int) : Int :=
  ((claims.filter (fun c => c.provider_npi = npi)).map (fun c => c.net_fee)).sum

/-- The grouped rows of the aggregation, one per distinct
`provider_npi`. -/
def groupRows (claims : List StoredClaim) : List (Int × Int) :=
  ((claims.map (fun c => c.provider_npi)).dedup).map
    (fun n => (n, totalNetFee claims n))

/-- The `ORDER BY sum(net_fee) DESC, provider_npi DESC` relation:
row `a` comes no later than row `b`. -/
def provOrder (a b : Int × Int) : Prop :=
  b.2 < a.2 ∨ (a.2 = b.2 ∧ b.1 ≤ a.1)

instance : DecidableRel provOrder := fun a b => by
  unfold provOrder; infer_instance

instance : IsTotal (Int × Int) provOrder where
  total a b := by
    unfold provOrder
    rcases lt_trichotomy a.2 b.2 with h | h | h
    · exact Or.inr (Or.inl h)
    · rcases le_total a.1 b.1 with h1 | h1
      · exact Or.inr (Or.inr ⟨h.symm, h1⟩)
      · exact Or.inl (Or.inr ⟨h, h1⟩)
    · exact Or.inl (Or.inl h)

instance : IsTrans (Int × Int) provOrder where
  trans a b c hab hbc := by
    unfold provOrder at *
    rcases hab with h1 | ⟨e1, l1⟩
    · rcases hbc with h2 | ⟨e2, l2⟩
      · exact Or.inl (h2.trans h1)
      · exact Or.inl (e2 ▸ h1)
    · rcases hbc with h2 | ⟨e2, l2⟩
      · exact Or.inl (e1 ▸ h2)
      · exact Or.inr ⟨e1.trans e2, l2.trans l1⟩

/-- Model of `GET /top_providers`: group the claims by `provider_npi`,
sum `net_fee` per group, order by total descending with the larger NPI
first on ties, and keep the first 10 rows. -/
def get_top_providers (claims : List StoredClaim) : List (Int × Int) :=
  ((groupRows claims).insertionSort provOrder).take 10

/-! ### Concrete records shared by the witnesses -/

/-- The end-to-end example claim of the spec (fees in cents). -/
def rawEx2 : RawClaim :=
  { service_date := "3/28/18 0:00",
    submitted_procedure := "D123",
    quadrant := some (some "UR"),
    plan_group := "Group A",
    subscriber_id := 100001,
    provider_npi := 1234567890,
    provider_fees := 50075,
    allowed_fees := 45050,
    member_coinsurance := 5025,
    member_copay := 2000 }

/-- The row stored for `rawEx2` (`net_fee = $120.50`). -/
def storedEx : StoredClaim :=
  { id := 1, service_date := ⟨2018, 3, 28⟩, submitted_procedure := "D123",
    quadrant := "UR", plan_group := "Group A", subscriber_id := 100001,
    provider_npi := 1234567890, provider_fees := 50075, allowed_fees := 45050,
    member_coinsurance := 5025, member_copay := 2000, net_fee := 12050 }

/-- The record `rawEx2` with a null quadrant. -/
def rawNullQuadrant : RawClaim := { rawEx2 with quadrant := some none }

/-- The row stored for `rawNullQuadrant`. -/
def storedNullQuadrant : StoredClaim := { storedEx with quadrant := "" }

/-- The record `rawEx2` without the quadrant key. -/
def rawNoQuadrant : RawClaim := { rawEx2 with quadrant := none }

/-- The record `rawEx2` with a lower-case procedure code. -/
def rawLowerProc : RawClaim := { rawEx2 with submitted_procedure := "d123" }

/-- The record `rawEx2` with a procedure code not starting with D. -/
def rawBadProc : RawClaim := { rawEx2 with submitted_procedure := "x123" }

/-- The fee quadruple on which the `src/app/main.py` revision diverges
from the net-fee formula (satisfies the quadruple constraint
`provider_fees + member_coinsurance + member_copay ≥ allowed_fees`). -/
def c1FailingApp : AppRawClaim :=
  { provider_npi := "1234567890", submitted_procedure := "D0123",
    allowed_fees := 5000, provider_fees := 8000,
    member_coinsurance := 1000, member_copay := 500 }

/-- The claim record used to refute C2 as stated: its fee expression
is negative. -/
def c2NegativeApp : AppRawClaim :=
  { provider_npi := "1234567890", submitted_procedure := "D0123",
    allowed_fees := 1000, provider_fees := 0,
    member_coinsurance := 0, member_copay := 0 }

/-- A header list whose mapping covers everything except
`provider_fees` and `quadrant`. -/
def c7Headers : List String :=
  ["Service Date", "Submitted Procedure", "Plan/Group #", "Subscriber#",
   "Provider NPI", "Allowed Fees", "Member Coinsurance", "Member Copay"]

/-- A claim for provider `n` with net fee `n` (cents). -/
def mkC3 (n : Int) : StoredClaim :=
  { storedEx with provider_npi := n, net_fee := n }

/-- Eleven claims for eleven distinct providers, so that one group
falls outside the top 10. -/
def c3Claims : List StoredClaim :=
  [mkC3 0, mkC3 1, mkC3 2, mkC3 3, mkC3 4, mkC3 5,
   mkC3 6, mkC3 7, mkC3 8, mkC3 9, mkC3 10]

/-! ### Inversion lemmas for the single-claim pipeline -/

/-- A successful pydantic validation preserves every field; the
pattern, range and sign checks all passed. -/
lemma pydantic_validate_ok {r : RawClaim} {p : ParsedClaim}
    (h : pydantic_validate r = .ok p) :
    parse_service_date r.service_date = .ok p.service_date ∧
    matchesProcPat r.submitted_procedure = true ∧
    r.quadrant = some p.quadrant ∧
    p.submitted_procedure = r.submitted_procedure ∧
    p.plan_group = r.plan_group ∧
    p.subscriber_id = r.subscriber_id ∧
    p.provider_npi = r.provider_npi ∧
    p.provider_fees = r.provider_fees ∧
    p.allowed_fees = r.allowed_fees ∧
    p.member_coinsurance = r.member_coinsurance ∧
    p.member_copay = r.member_copay := by
  unfold pydantic_validate at h
  split at h
  · exact absurd h (by simp)
  · rename_i d hd
    split at h
    · exact absurd h (by simp)
    · rename_i hm
      split at h
      · exact absurd h (by simp)
      · rename_i q hq
        split at h
        · exact absurd h (by simp)
        · split at h
          · exact absurd h (by simp)
          · injection h with h
            subst h
            refine ⟨hd, ?_, hq, rfl, rfl, rfl, rfl, rfl, rfl, rfl, rfl⟩
            by_contra hc
            exact hm (by simpa using hc)

/-- A successful `normalize_claim_dict` produced its fields from the
parsed claim: the procedure was upper-cased, stripped and validated,
the NPI survived `clean_npi`, a null quadrant became the empty string,
and `net_fee` is the fee expression. -/
lemma normalize_claim_dict_ok {p : ParsedClaim} {c : CleanedClaim}
    (h : normalize_claim_dict p = .ok c) :
    validate_procedure_code (String.mk (upStr p.submitted_procedure.toList)) =
      .ok c.submitted_procedure ∧
    (∃ npi, clean_npi (toString p.provider_npi) = .ok npi ∧
      c.provider_npi = (natOfDigits npi.toList : Int)) ∧
    c.service_date = p.service_date ∧
    c.quadrant = (match p.quadrant with
      | none => ""
      | some q => q) ∧
    c.plan_group = p.plan_group ∧
    c.subscriber_id = p.subscriber_id ∧
    c.provider_fees = p.provider_fees ∧
    c.allowed_fees = p.allowed_fees ∧
    c.member_coinsurance = p.member_coinsurance ∧
    c.member_copay = p.member_copay ∧
    c.net_fee = p.provider_fees + p.member_coinsurance + p.member_copay
      - p.allowed_fees := by
  unfold normalize_claim_dict at h
  split at h
  · exact absurd h (by simp)
  · rename_i proc hv
    split at h
    · exact absurd h (by simp)
    · rename_i npi hn
      injection h with h
      subst h
      exact ⟨hv, ⟨npi, hn, rfl⟩, rfl, rfl, rfl, rfl, rfl, rfl, rfl, rfl, rfl⟩

/-- A 201 response from `create_claim` means: pydantic passed, the
normalizer passed, the net fee was non-negative, the commit succeeded,
and the returned record was appended to the store. -/
lemma create_claim_ok {store : List StoredClaim} {r : RawClaim}
    {dbFail : Option String} {st : List StoredClaim} {s : StoredClaim}
    (h : create_claim store r dbFail = (st, .ok s)) :
    ∃ p c, pydantic_validate r = .ok p ∧ normalize_claim_dict p = .ok c ∧
      ¬ c.net_fee < 0 ∧ dbFail = none ∧
      s = mkStored (store.length + 1) c ∧ st = store ++ [s] := by
  unfold create_claim create_claim_handler at h
  split at h
  · exact absurd h (by simp)
  · rename_i p hp
    split at h
    · exact absurd h (by simp)
    · rename_i c hn
      split at h
      · exact absurd h (by simp)
      · rename_i hnet
        split at h
        · exact absurd h (by simp)
        · simp only [Prod.mk.injEq, Except.ok.injEq] at h
          exact ⟨p, c, hp, hn, hnet, rfl, h.2.symm, by rw [← h.1, h.2]⟩

/-- A pydantic validation failure surfaces as a 422 and leaves the
store untouched. -/
lemma create_claim_pydantic_error {store : List StoredClaim} {r : RawClaim}
    {dbFail : Option String} {m : String}
    (hp : pydantic_validate r = .error m) :
    create_claim store r dbFail = (store, .error (422, m)) := by
  unfold create_claim
  simp only [hp]

/-- If the raw procedure code does not match `^D\w+`, pydantic
rejects the request. -/
lemma pydantic_validate_error_of_pattern {r : RawClaim}
    (hm : matchesProcPat r.submitted_procedure = false) :
    ∃ m, pydantic_validate r = .error m := by
  unfold pydantic_validate
  cases hd : parse_service_date r.service_date with
  | error m => exact ⟨m, rfl⟩
  | ok d => exact ⟨"String should match pattern ^D\\w+", by simp [hm]⟩

/-- If the `quadrant` key is absent, pydantic rejects the request. -/
lemma pydantic_validate_error_of_no_quadrant {r : RawClaim}
    (hq : r.quadrant = none) :
    ∃ m, pydantic_validate r = .error m := by
  unfold pydantic_validate
  cases hd : parse_service_date r.service_date with
  | error m => exact ⟨m, rfl⟩
  | ok d =>
    by_cases hm : matchesProcPat r.submitted_procedure
    · exact ⟨"Field required: quadrant", by simp [hm, hq]⟩
    · exact ⟨"String should match pattern ^D\\w+", by
        simp only [Bool.not_eq_true] at hm
        simp [hm]⟩

/-- C10: on the single-claim API path, every failure raised after
request parsing — normalization errors, the negative-net-fee rejection,
and database commit failures — is caught by the `except` block of
`create_claim` in `src/api/claims.py` and surfaced as an HTTP 400
client error whose detail is the string of the raised exception; no
failure of the handler body produces a 5xx, and a failed request never
changes the store. -/
theorem c10_handler_client_errors (store : List StoredClaim) (p : ParsedClaim)
    (dbFail : Option String) (st2 : List StoredClaim) (st : Nat) (msg : String)
    (h : create_claim_handler store p dbFail = (st2, .error (st, msg))) :
    st = 400 ∧ st2 = store ∧
    ((∃ m, normalize_claim_dict p = .error m ∧ msg = strOfExc (.valueErr m)) ∨
     (msg = strOfExc (.httpErr 400 "Net fee cannot be negative")) ∨
     (∃ m, dbFail = some m ∧ msg = strOfExc (.valueErr m))) := by
  unfold create_claim_handler at h
  split at h
  · rename_i m hm
    simp only [Prod.mk.injEq, Except.error.injEq] at h
    exact ⟨h.2.1.symm, h.1.symm, Or.inl ⟨m, hm, h.2.2.symm⟩⟩
  · rename_i c hc
    split at h
    · simp only [Prod.mk.injEq, Except.error.injEq] at h
      exact ⟨h.2.1.symm, h.1.symm, Or.inr (Or.inl h.2.2.symm)⟩
    · split at h
      · rename_i m
        simp only [Prod.mk.injEq, Except.error.injEq] at h
        exact ⟨h.2.1.symm, h.1.symm, Or.inr (Or.inr ⟨m, rfl, h.2.2.symm⟩)⟩
      · exact absurd h (by simp)

/-- Witness for C10 at a concrete input: a parsed claim whose NPI does
not reduce to 10 digits makes the normalizer raise, and the handler
turns that into a 400 whose detail is the `ValueError` message. -/
theorem c10_handler_client_errors_witness :
    (400 : Nat) = 400 ∧ ([] : List StoredClaim) = [] ∧
    ((∃ m, normalize_claim_dict
        { service_date := ⟨2018, 3, 28⟩, submitted_procedure := "D123",
          quadrant := some "UR", plan_group := "Group A",
          subscriber_id := 100001, provider_npi := 123,
          provider_fees := 0, allowed_fees := 0,
          member_coinsurance := 0, member_copay := 0 } = .error m ∧
        "Invalid NPI: 123" = strOfExc (.valueErr m)) ∨
     ("Invalid NPI: 123" = strOfExc (.httpErr 400 "Net fee cannot be negative")) ∨
     (∃ m, (none : Option String) = some m ∧
        "Invalid NPI: 123" = strOfExc (.valueErr m))) :=
  c10_handler_client_errors []
    { service_date := ⟨2018, 3, 28⟩, submitted_procedure := "D123",
      quadrant := some "UR", plan_group := "Group A",
      subscriber_id := 100001, provider_npi := 123,
      provider_fees := 0, allowed_fees := 0,
      member_coinsurance := 0, member_copay := 0 }
    none [] 400 "Invalid NPI: 123" (by rfl)

/-- C2 (amended): on the single-claim paths that implement the
net-fee rule — `src/api/claims.py` and `src/main.py` — a submitted
claim whose fee quadruple makes
`provider_fees + member_coinsurance + member_copay - allowed_fees`
negative is rejected with a client error (4xx) and the store is
unchanged.  (The `src/app/main.py` revision performs no such check;
see the counterexample.) -/
theorem c2_negative_net_fee_rejected :
    (∀ (store : List StoredClaim) (r : RawClaim) (dbFail : Option String),
      r.provider_fees + r.member_coinsurance + r.member_copay - r.allowed_fees < 0 →
      (create_claim store r dbFail).1 = store ∧
      ∃ st m, (create_claim store r dbFail).2 = .error (st, m) ∧
        400 ≤ st ∧ st < 500) ∧
    (∀ (store : List StoredClaim) (r : MainRawClaim),
      r.provider_fees + r.member_coinsurance + r.member_copay - r.allowed_fees < 0 →
      (main_create_claim store r).1 = store ∧
      ∃ st m, (main_create_claim store r).2 = .error (st, m) ∧
        400 ≤ st ∧ st < 500) := by
  constructor
  · intro store r dbFail hneg
    cases hp : pydantic_validate r with
    | error m =>
      rw [create_claim_pydantic_error hp]
      exact ⟨by trivial, 422, m, by trivial, by decide, by decide⟩
    | ok p =>
      obtain ⟨-, -, -, -, -, -, -, hpf, haf, hmc, hmcp⟩ := pydantic_validate_ok hp
      unfold create_claim
      simp only [hp]
      unfold create_claim_handler
      cases hn : normalize_claim_dict p with
      | error m =>
        exact ⟨by trivial, 400, strOfExc (.valueErr m), by trivial, by decide, by decide⟩
      | ok c =>
        obtain ⟨-, -, -, -, -, -, -, -, -, -, hnet⟩ := normalize_claim_dict_ok hn
        have hlt : c.net_fee < 0 := by
          rw [hnet, hpf, haf, hmc, hmcp]; exact hneg
        dsimp only
        rw [if_pos hlt]
        exact ⟨by trivial, 400, strOfExc (.httpErr 400 "Net fee cannot be negative"),
          by trivial, by decide, by decide⟩
  · intro store r hneg
    cases hp : main_pydantic_validate r with
    | error m =>
      unfold main_create_claim
      simp only [hp]
      exact ⟨by trivial, 422, m, by trivial, by decide, by decide⟩
    | ok p =>
      have hfees : p.provider_fees = r.provider_fees ∧ p.allowed_fees = r.allowed_fees ∧
          p.member_coinsurance = r.member_coinsurance ∧
          p.member_copay = r.member_copay := by
        unfold main_pydantic_validate at hp
        split at hp
        · exact absurd hp (by simp)
        · split at hp
          · split at hp
            · exact absurd hp (by simp)
            · injection hp with hp
              subst hp
              exact ⟨rfl, rfl, rfl, rfl⟩
          · exact absurd hp (by simp)
      obtain ⟨hpf, haf, hmc, hmcp⟩ := hfees
      unfold main_create_claim
      simp only [hp]
      have hlt : p.provider_fees + p.member_coinsurance + p.member_copay
          - p.allowed_fees < 0 := by
        rw [hpf, haf, hmc, hmcp]; exact hneg
      rw [if_pos hlt]
      exact ⟨by trivial, 400, "Calculated net fee cannot be negative",
        by trivial, by decide, by decide⟩

/-- Witness for C2 at concrete inputs on both paths: a claim whose fee
expression is `-298.50` dollars is rejected with a 400 and the store
stays empty. -/
theorem c2_negative_net_fee_rejected_witness :
    ((create_claim []
        { service_date := "3/28/18 0:00", submitted_procedure := "D123",
          quadrant := some (some "UR"), plan_group := "Group A",
          subscriber_id := 100001, provider_npi := 1234567890,
          provider_fees := 50075, allowed_fees := 87000,
          member_coinsurance := 5025, member_copay := 2000 } none).1 = [] ∧
      ∃ st m, (create_claim []
        { service_date := "3/28/18 0:00", submitted_procedure := "D123",
          quadrant := some (some "UR"), plan_group := "Group A",
          subscriber_id := 100001, provider_npi := 1234567890,
          provider_fees := 50075, allowed_fees := 87000,
          member_coinsurance := 5025, member_copay := 2000 } none).2 =
          .error (st, m) ∧ 400 ≤ st ∧ st < 500) ∧
    ((main_create_claim []
        { service_date := "3/28/18 0:00", submitted_procedure := "D123",
          quadrant := "UR", plan_group := "Group A",
          subscriber_id := 100001, provider_npi := 1234567890,
          provider_fees := 50075, allowed_fees := 87000,
          member_coinsurance := 5025, member_copay := 2000 }).1 = [] ∧
      ∃ st m, (main_create_claim []
        { service_date := "3/28/18 0:00", submitted_procedure := "D123",
          quadrant := "UR", plan_group := "Group A",
          subscriber_id := 100001, provider_npi := 1234567890,
          provider_fees := 50075, allowed_fees := 87000,
          member_coinsurance := 5025, member_copay := 2000 }).2 =
          .error (st, m) ∧ 400 ≤ st ∧ st < 500) :=
  ⟨c2_negative_net_fee_rejected.1 []
      { service_date := "3/28/18 0:00", submitted_procedure := "D123",
        quadrant := some (some "UR"), plan_group := "Group A",
        subscriber_id := 100001, provider_npi := 1234567890,
        provider_fees := 50075, allowed_fees := 87000,
        member_coinsurance := 5025, member_copay := 2000 } none (by decide),
   c2_negative_net_fee_rejected.2 []
      { service_date := "3/28/18 0:00", submitted_procedure := "D123",
        quadrant := "UR", plan_group := "Group A",
        subscriber_id := 100001, provider_npi := 1234567890,
        provider_fees := 50075, allowed_fees := 87000,
        member_coinsurance := 5025, member_copay := 2000 } (by decide)⟩

/-- Counterexample to C2 as stated: on the `src/app/main.py`
single-claim path a claim with a negative fee expression is accepted —
the endpoint returns the created row and a row is persisted, so it is
not the case that every single-claim path rejects such claims. -/
theorem c2_negative_net_fee_counterexample :
    c2NegativeApp.provider_fees + c2NegativeApp.member_coinsurance +
      c2NegativeApp.member_copay - c2NegativeApp.allowed_fees < 0 ∧
    app_create_claim [] c2NegativeApp =
      ([{ id := 1, provider_npi := "1234567890", submitted_procedure := "D0123",
          allowed_fees := 1000, provider_fees := 0, member_coinsurance := 0,
          member_copay := 0, net_fee := 1000 }],
       .ok { id := 1, provider_npi := "1234567890", submitted_procedure := "D0123",
             allowed_fees := 1000, provider_fees := 0, member_coinsurance := 0,
             member_copay := 0, net_fee := 1000 }) :=
  ⟨by decide, by rfl⟩

/-! ### Character facts used for the procedure-code claim -/

/-- Converting a valid scalar value to a character and back is the
identity. -/
lemma toNat_ofNat_valid {n : Nat} (h : n.isValidChar) : (Char.ofNat n).toNat = n := by
  rw [Char.ofNat, dif_pos h]
  rfl

/-- Characters are equal exactly when their scalar values are. -/
lemma char_eq_iff_toNat {c d : Char} : c = d ↔ c.toNat = d.toNat := by
  constructor
  · intro h; rw [h]
  · intro h
    calc c = Char.ofNat c.toNat := (Char.ofNat_toNat c).symm
    _ = Char.ofNat d.toNat := by rw [h]
    _ = d := Char.ofNat_toNat d

/-- Scalar value of `Char.toUpper`. -/
lemma toUpper_toNat (c : Char) :
    c.toUpper.toNat = if c.toNat ≥ 97 ∧ c.toNat ≤ 122 then c.toNat - 32 else c.toNat := by
  show (if c.toNat ≥ 97 ∧ c.toNat ≤ 122 then Char.ofNat (c.toNat - 32) else c).toNat = _
  split
  · rename_i h
    exact toNat_ofNat_valid (Or.inl (by omega))
  · rfl

/-- Upper-casing is idempotent. -/
lemma toUpper_idem (c : Char) : c.toUpper.toUpper = c.toUpper := by
  rw [char_eq_iff_toNat, toUpper_toNat, toUpper_toNat]
  split_ifs <;> omega

/-- Upper-casing a character list is idempotent. -/
lemma upStr_idem (l : List Char) : upStr (upStr l) = upStr l := by
  unfold upStr upChar
  rw [List.map_map]
  exact List.map_congr_left (fun c _ => toUpper_idem c)

/-- A successful `validate_procedure_code` returns the stripped,
upper-cased code, and the stripped upper-cased code starts with
letter D. -/
lemma validate_procedure_code_ok {code t : String}
    (h : validate_procedure_code code = .ok t) :
    t = String.mk (upStr (stripChars code.toList)) ∧
    (upStr (stripChars code.toList)).head? = some 'D' := by
  unfold validate_procedure_code at h
  dsimp only at h
  split at h
  · rename_i heq
    injection h with h
    subst h
    exact ⟨rfl, heq⟩
  · exact absurd h (by simp)

/-- The validator accepts exactly the codes whose stripped
upper-cased form starts with letter D. -/
lemma validate_procedure_code_ok_iff (code : String) :
    (∃ t, validate_procedure_code code = .ok t) ↔
    (upStr (stripChars code.toList)).head? = some 'D' := by
  constructor
  · rintro ⟨t, h⟩
    exact (validate_procedure_code_ok h).2
  · intro h
    refine ⟨String.mk (upStr (stripChars code.toList)), ?_⟩
    unfold validate_procedure_code
    dsimp only
    rw [if_pos h]

/-- A `String.mk` round-trips through `toList`. -/
lemma toList_mk (l : List Char) : (String.mk l).toList = l := rfl

/-- Inversion for `clean_npi`: success yields the digit reduction and
requires exactly 10 digits. -/
lemma clean_npi_ok {s t : String} (h : clean_npi s = .ok t) :
    (s.toList.filter isDigitCh).length = 10 ∧
    t = String.mk (s.toList.filter isDigitCh) := by
  unfold clean_npi at h
  dsimp only at h
  split at h
  · rename_i hlen
    injection h with h
    exact ⟨hlen, h.symm⟩
  · exact absurd h (by simp)

/-- Cleaning fails, naming the raw value, whenever the digit
reduction does not have exactly 10 digits. -/
lemma clean_npi_error {s : String} (h : (s.toList.filter isDigitCh).length ≠ 10) :
    clean_npi s = .error ("Invalid NPI: " ++ s) := by
  unfold clean_npi
  dsimp only
  rw [if_neg h]

/-- Inversion for the `src/main.py` pydantic schema. -/
lemma main_pydantic_validate_ok {r : MainRawClaim} {p : MainParsedClaim}
    (h : main_pydantic_validate r = .ok p) :
    parse_custom_date r.service_date = .ok p.service_date ∧
    p.submitted_procedure = r.submitted_procedure ∧
    p.quadrant = r.quadrant ∧ p.plan_group = r.plan_group ∧
    p.subscriber_id = r.subscriber_id ∧ p.provider_npi = r.provider_npi ∧
    p.provider_fees = r.provider_fees ∧ p.allowed_fees = r.allowed_fees ∧
    p.member_coinsurance = r.member_coinsurance ∧
    p.member_copay = r.member_copay := by
  unfold main_pydantic_validate at h
  split at h
  · exact absurd h (by simp)
  · rename_i d hd
    split at h
    · split at h
      · exact absurd h (by simp)
      · injection h with h
        subst h
        exact ⟨hd, rfl, rfl, rfl, rfl, rfl, rfl, rfl, rfl, rfl⟩
    · exact absurd h (by simp)

/-- C1: every claim accepted by the `src/api/claims.py` or `src/main.py`
single-claim path stores
`net_fee = provider_fees + member_coinsurance + member_copay - allowed_fees`
exactly (cent-exact, hence to two decimal places), and every bulk row
stores the same expression; but the `src/app/main.py` revision instead
stores `allowed_fees - provider_fees`, shown diverging at a concrete
quadruple satisfying the constraint (its own test asserts the correct
formula, so this revision is a code bug). -/
theorem c1_net_fee_formula :
    (∀ (store : List StoredClaim) (r : RawClaim) (dbFail : Option String)
        (st : List StoredClaim) (s : StoredClaim),
      create_claim store r dbFail = (st, .ok s) →
      s.net_fee = r.provider_fees + r.member_coinsurance + r.member_copay
        - r.allowed_fees) ∧
    (∀ (store : List StoredClaim) (r : MainRawClaim)
        (st : List StoredClaim) (s : StoredClaim),
      main_create_claim store r = (st, .ok s) →
      s.net_fee = r.provider_fees + r.member_coinsurance + r.member_copay
        - r.allowed_fees) ∧
    (∀ (renamed : List String) (row : List (Option String)) (b : BulkStored),
      transformRow renamed row = .ok b →
      b.net_fee = oSub (oAdd (oAdd b.provider_fees b.member_coinsurance)
        b.member_copay) b.allowed_fees) ∧
    ((app_create_claim [] c1FailingApp).2 =
      .ok { id := 1, provider_npi := "1234567890", submitted_procedure := "D0123",
            allowed_fees := 5000, provider_fees := 8000, member_coinsurance := 1000,
            member_copay := 500, net_fee := -3000 } ∧
     c1FailingApp.provider_fees + c1FailingApp.member_coinsurance +
       c1FailingApp.member_copay - c1FailingApp.allowed_fees = 4500 ∧
     ((-3000 : Int) ≠ 4500)) := by
  refine ⟨?_, ?_, ?_, by rfl, by decide, by decide⟩
  · intro store r dbFail st s h
    obtain ⟨p, c, hp, hn, -, -, hs, -⟩ := create_claim_ok h
    obtain ⟨-, -, -, -, -, -, -, hpf, haf, hmc, hmcp⟩ := pydantic_validate_ok hp
    obtain ⟨-, -, -, -, -, -, -, -, -, -, hnet⟩ := normalize_claim_dict_ok hn
    subst hs
    show c.net_fee = _
    rw [hnet, hpf, haf, hmc, hmcp]
  · intro store r st s h
    unfold main_create_claim at h
    split at h
    · exact absurd h (by simp)
    · rename_i p hp
      dsimp only at h
      split at h
      · exact absurd h (by simp)
      · simp only [Prod.mk.injEq, Except.ok.injEq] at h
        obtain ⟨-, -, -, -, -, -, hpf, haf, hmc, hmcp⟩ := main_pydantic_validate_ok hp
        rw [← h.2]
        show p.provider_fees + p.member_coinsurance + p.member_copay
          - p.allowed_fees = _
        rw [hpf, haf, hmc, hmcp]
  · intro renamed row b h
    unfold transformRow at h
    split at h
    · exact absurd h (by simp)
    · split at h
      · exact absurd h (by simp)
      · split at h
        · exact absurd h (by simp)
        · split at h
          · exact absurd h (by simp)
          · split at h
            · exact absurd h (by simp)
            · split at h
              · exact absurd h (by simp)
              · injection h with h
                subst h
                rfl

/-- Witness for C1 at concrete inputs: the accepted end-to-end example
stores exactly the fee expression, and the divergent value of the
`src/app/main.py` revision differs from the formula value. -/
theorem c1_net_fee_formula_witness :
    storedEx.net_fee = rawEx2.provider_fees + rawEx2.member_coinsurance +
      rawEx2.member_copay - rawEx2.allowed_fees ∧
    ((-3000 : Int) ≠ 4500) :=
  ⟨c1_net_fee_formula.1 [] rawEx2 none [storedEx] storedEx (by rfl),
   c1_net_fee_formula.2.2.2.2.2⟩

/-- C4: `clean_npi` fails with an error naming the raw value whenever
the digit-only reduction of the input does not have exactly 10 digits,
succeeds exactly on 10-digit reductions (returning the reduction), and
every claim accepted by the single-claim path has a provider NPI whose
digit reduction has exactly 10 digits. -/
theorem c4_npi_ten_digits :
    (∀ s : String, (s.toList.filter isDigitCh).length ≠ 10 →
      clean_npi s = .error ("Invalid NPI: " ++ s)) ∧
    (∀ s t : String, clean_npi s = .ok t →
      (s.toList.filter isDigitCh).length = 10 ∧
      t = String.mk (s.toList.filter isDigitCh)) ∧
    (∀ (store : List StoredClaim) (r : RawClaim) (dbFail : Option String)
        (st : List StoredClaim) (s : StoredClaim),
      create_claim store r dbFail = (st, .ok s) →
      ((toString r.provider_npi).toList.filter isDigitCh).length = 10) := by
  refine ⟨fun s h => clean_npi_error h, fun s t h => clean_npi_ok h, ?_⟩
  intro store r dbFail st s h
  obtain ⟨p, c, hp, hn, -, -, -, -⟩ := create_claim_ok h
  obtain ⟨-, -, -, -, -, -, hnpi, -, -, -, -⟩ := pydantic_validate_ok hp
  obtain ⟨-, ⟨npi, hcl, -⟩, -⟩ := normalize_claim_dict_ok hn
  rw [hnpi] at hcl
  exact (clean_npi_ok hcl).1

/-- Witness for C4 at concrete inputs: the 8-digit value
`"123-456-78"` is rejected with an error naming it, a valid value
returns its digit reduction, and the accepted end-to-end example claim
has a 10-digit NPI. -/
theorem c4_npi_ten_digits_witness :
    clean_npi "123-456-78" = .error "Invalid NPI: 123-456-78" ∧
    ((("123-456-78" : String).toList.filter isDigitCh).length = 10 ∧
      ("1234567890" : String) = String.mk (("123-456-78" : String).toList.filter isDigitCh) →
      False) ∧
    ((toString (rawEx2.provider_npi)).toList.filter isDigitCh).length = 10 :=
  ⟨c4_npi_ten_digits.1 "123-456-78" (by decide),
   fun h => absurd h.1 (by decide),
   c4_npi_ten_digits.2.2 [] rawEx2 none [storedEx] storedEx (by rfl)⟩

/-- C5 (amended): a claim accepted by the single-claim API path has a
raw `submitted_procedure` matching the schema pattern `^D\w+` (a
literal capital `D` followed by a word character — a lower-case `d` is
rejected by the schema before the case-insensitive normalizer runs),
and the stored value is the trimmed upper-cased code (in particular it
is upper-case invariant); a raw value failing the pattern is rejected
with a 422; the normalize-layer validator alone accepts exactly the
codes whose trimmed upper-cased form starts with `D`. -/
theorem c5_procedure_gate :
    (∀ (store : List StoredClaim) (r : RawClaim) (dbFail : Option String)
        (st : List StoredClaim) (s : StoredClaim),
      create_claim store r dbFail = (st, .ok s) →
      matchesProcPat r.submitted_procedure = true ∧
      s.submitted_procedure =
        String.mk (upStr (stripChars (upStr r.submitted_procedure.toList))) ∧
      upStr s.submitted_procedure.toList = s.submitted_procedure.toList) ∧
    (∀ (store : List StoredClaim) (r : RawClaim) (dbFail : Option String),
      matchesProcPat r.submitted_procedure = false →
      ∃ m, create_claim store r dbFail = (store, .error (422, m))) ∧
    (∀ code : String, (∃ t, validate_procedure_code code = .ok t) ↔
      (upStr (stripChars code.toList)).head? = some 'D') := by
  refine ⟨?_, ?_, validate_procedure_code_ok_iff⟩
  · intro store r dbFail st s h
    obtain ⟨p, c, hp, hn, -, -, hs, -⟩ := create_claim_ok h
    obtain ⟨-, hm, -, hsp, -⟩ := pydantic_validate_ok hp
    obtain ⟨hv, -⟩ := normalize_claim_dict_ok hn
    obtain ⟨hval, -⟩ := validate_procedure_code_ok hv
    subst hs
    rw [toList_mk, hsp] at hval
    refine ⟨hm, hval, ?_⟩
    show upStr c.submitted_procedure.toList = c.submitted_procedure.toList
    rw [hval, toList_mk]
    exact upStr_idem _
  · intro store r dbFail hm
    obtain ⟨m, hp⟩ := pydantic_validate_error_of_pattern hm
    exact ⟨m, create_claim_pydantic_error hp⟩

/-- Witness for C5 at concrete inputs: the accepted example claim has
a pattern-matching code stored upper-cased, and a code failing the
pattern is rejected with a 422. -/
theorem c5_procedure_gate_witness :
    (matchesProcPat rawEx2.submitted_procedure = true ∧
      storedEx.submitted_procedure =
        String.mk (upStr (stripChars (upStr rawEx2.submitted_procedure.toList))) ∧
      upStr storedEx.submitted_procedure.toList =
        storedEx.submitted_procedure.toList) ∧
    (∃ m, create_claim [] rawBadProc none = ([], .error (422, m))) ∧
    ((∃ t, validate_procedure_code " d0180 " = .ok t) ↔
      (upStr (stripChars (" d0180 " : String).toList)).head? = some 'D') :=
  ⟨c5_procedure_gate.1 [] rawEx2 none [storedEx] storedEx (by rfl),
   c5_procedure_gate.2.1 [] rawBadProc none (by decide),
   c5_procedure_gate.2.2 " d0180 "⟩

/-- Counterexample to C5 as stated: `"d123"` upper-cases to a code
starting with `D`, so the claim as stated says it must be accepted,
but the single-claim path rejects it (the schema pattern is
case-sensitive). -/
theorem c5_procedure_counterexample :
    (upStr (stripChars rawLowerProc.submitted_procedure.toList)).head? = some 'D' ∧
    create_claim [] rawLowerProc none =
      ([], .error (422, "String should match pattern ^D\\w+")) := by
  constructor
  · decide
  · rfl

/-- C9 (amended): a submitted claim whose `quadrant` is an explicit
null is accepted and stored with the empty string; but a claim whose
`quadrant` key is absent is rejected by schema validation with a 422
(in pydantic v2 `Optional[str]` is required-but-nullable). -/
theorem c9_null_quadrant_stored_empty :
    (∀ (store : List StoredClaim) (r : RawClaim) (dbFail : Option String)
        (st : List StoredClaim) (s : StoredClaim),
      r.quadrant = some none →
      create_claim store r dbFail = (st, .ok s) → s.quadrant = "") ∧
    (∀ (store : List StoredClaim) (r : RawClaim) (dbFail : Option String),
      r.quadrant = none →
      ∃ m, create_claim store r dbFail = (store, .error (422, m))) := by
  constructor
  · intro store r dbFail st s hq h
    obtain ⟨p, c, hp, hn, -, -, hs, -⟩ := create_claim_ok h
    obtain ⟨-, -, hq2, -⟩ := pydantic_validate_ok hp
    rw [hq] at hq2
    injection hq2 with hq2
    obtain ⟨-, -, -, hqc, -⟩ := normalize_claim_dict_ok hn
    subst hs
    show c.quadrant = ""
    rw [hqc, ← hq2]
  · intro store r dbFail hq
    obtain ⟨m, hp⟩ := pydantic_validate_error_of_no_quadrant hq
    exact ⟨m, create_claim_pydantic_error hp⟩

/-- Witness for C9 at concrete inputs: the example claim with a null
quadrant is stored with the empty string, and with the key absent it
is rejected with a 422. -/
theorem c9_null_quadrant_stored_empty_witness :
    storedNullQuadrant.quadrant = "" ∧
    (∃ m, create_claim [] rawNoQuadrant none = ([], .error (422, m))) :=
  ⟨c9_null_quadrant_stored_empty.1 [] rawNullQuadrant none
      [storedNullQuadrant] storedNullQuadrant (by rfl) (by rfl),
   c9_null_quadrant_stored_empty.2 [] rawNoQuadrant none (by rfl)⟩

/-- Counterexample to C9 as stated: a claim with the `quadrant` key
absent is not accepted — the single-claim path rejects it with a 422
validation error, so "absent or null implies accepted" fails. -/
theorem c9_absent_quadrant_counterexample :
    rawNoQuadrant.quadrant = none ∧
    create_claim [] rawNoQuadrant none =
      ([], .error (422, "Field required: quadrant")) := by
  constructor
  · rfl
  · rfl

/-- C6: on the single-claim path, `parse_service_date` accepts exactly
the first-succeeding of the formats `MM/DD/YY HH:MM`, `YYYY-MM-DD`,
`MM/DD/YYYY`, tried in that order; when all three fail it raises; and
the end-to-end example `"3/28/18 0:00"` is stored and retrievable with
date `2018-03-28`. -/
theorem c6_service_date_formats :
    (∀ (s : String) (d : PyDate), parse_service_date s = .ok d ↔
      (strptimeMDYHM s = some d ∨
       (strptimeMDYHM s = none ∧ strptimeYMD s = some d) ∨
       (strptimeMDYHM s = none ∧ strptimeYMD s = none ∧
        strptimeMDY4 s = some d))) ∧
    (∀ s : String, strptimeMDYHM s = none → strptimeYMD s = none →
      strptimeMDY4 s = none →
      parse_service_date s = .error "Invalid service_date format") ∧
    (create_claim [] rawEx2 none = ([storedEx], .ok storedEx) ∧
     storedEx.service_date = ⟨2018, 3, 28⟩) := by
  refine ⟨?_, ?_, by rfl, by rfl⟩
  · intro s d
    unfold parse_service_date
    cases h1 : strptimeMDYHM s with
    | some d1 => simp [h1]
    | none =>
      cases h2 : strptimeYMD s with
      | some d2 => simp [h1, h2]
      | none =>
        cases h3 : strptimeMDY4 s with
        | some d3 => simp [h1, h2, h3]
        | none => simp [h1, h2, h3]
  · intro s h1 h2 h3
    unfold parse_service_date
    rw [h1, h2, h3]

/-- Witness for C6 at concrete inputs: a fallback-format date parses
through the second format after the first fails, and an unparseable
date raises. -/
theorem c6_service_date_formats_witness :
    parse_service_date "2020-05-06" = .ok ⟨2020, 5, 6⟩ ∧
    parse_service_date "garbage" = .error "Invalid service_date format" :=
  ⟨(c6_service_date_formats.1 "2020-05-06" ⟨2020, 5, 6⟩).mpr
      (Or.inr (Or.inl ⟨by decide, by decide⟩)),
   c6_service_date_formats.2.1 "garbage" (by decide) (by decide) (by decide)⟩

/-- C8: monetary normalization strips every dollar sign and comma,
maps the textual literal `nan` and a missing cell to `0`, parses the
remaining text as a float, and raises a `ValueError` exactly when the
remaining text is not numeric. -/
theorem c8_monetary_normalization :
    (normalize_monetary none = .ok ⟨0, 0⟩) ∧
    (∀ s : String, stripMoneyChars s = "nan" →
      normalize_monetary (some s) = .ok ⟨0, 0⟩) ∧
    (∀ (s : String) (v : FloatVal), stripMoneyChars s ≠ "nan" →
      parse_float (stripMoneyChars s) = some v →
      normalize_monetary (some s) = .ok v) ∧
    (∀ s : String, stripMoneyChars s ≠ "nan" →
      parse_float (stripMoneyChars s) = none →
      normalize_monetary (some s) =
        .error ("could not convert string to float: " ++ stripMoneyChars s)) ∧
    (∀ s : String, (stripMoneyChars s).toList =
      s.toList.filter (fun c => ¬ (c = '$' ∨ c = ','))) ∧
    (normalize_monetary (some "$1,234.56") = .ok ⟨123456, 2⟩) := by
  refine ⟨by rfl, ?_, ?_, ?_, fun s => rfl, by rfl⟩
  · intro s h
    unfold normalize_monetary
    dsimp only
    rw [h]
    rfl
  · intro s v hne hpf
    unfold normalize_monetary
    dsimp only
    rw [if_neg hne, hpf]
  · intro s hne hpf
    unfold normalize_monetary
    dsimp only
    rw [if_neg hne, hpf]

/-- Witness for C8 at concrete inputs: a currency-formatted value
parses after stripping, the literal `nan` maps to zero, and
non-numeric text raises. -/
theorem c8_monetary_normalization_witness :
    normalize_monetary (some "nan") = .ok ⟨0, 0⟩ ∧
    normalize_monetary (some "12x") =
      .error ("could not convert string to float: " ++ stripMoneyChars "12x") ∧
    normalize_monetary (some "1,5") = .ok ⟨15, 0⟩ :=
  ⟨c8_monetary_normalization.2.1 "nan" (by decide),
   c8_monetary_normalization.2.2.2.1 "12x" (by decide) (by decide),
   c8_monetary_normalization.2.2.1 "1,5" ⟨15, 0⟩ (by decide) (by decide)⟩

/-- C7: if any canonical required column is absent after header
mapping, the bulk load fails with a single `KeyError`-class error
naming exactly the missing columns (all of them), and no row is
transformed or inserted; `check_required_columns` from
`src/normalize.py` behaves the same way on a column list. -/
theorem c7_missing_columns_abort :
    (∀ (headers : List String) (rows : List (List (Option String))),
      missingCols headers ≠ [] →
      initialize_data headers rows = .error (.keyErr (missingCols headers))) ∧
    (∀ (headers : List String) (c : String),
      c ∈ missingCols headers ↔
      (c ∈ REQUIRED_COLUMNS_INIT ∧ c ∉ renamedHeaders headers)) ∧
    (∀ (headers : List String) (rows : List (List (Option String)))
        (out : List BulkStored),
      missingCols headers ≠ [] → ¬ initialize_data headers rows = .ok out) ∧
    (∀ cols : List String, check_required_columns cols = .ok () ↔
      ∀ c ∈ REQUIRED_COLUMNS, c ∈ cols) ∧
    (∀ (cols missing : List String), check_required_columns cols = .error missing →
      ∀ c, c ∈ missing ↔ (c ∈ REQUIRED_COLUMNS ∧ c ∉ cols)) := by
  have hmem : ∀ (headers : List String) (c : String),
      c ∈ missingCols headers ↔
      (c ∈ REQUIRED_COLUMNS_INIT ∧ c ∉ renamedHeaders headers) := by
    intro headers c
    simp [missingCols, List.mem_filter, List.elem_iff]
  refine ⟨?_, hmem, ?_, ?_, ?_⟩
  · intro headers rows hne
    unfold initialize_data
    rw [if_pos]
    simpa [List.isEmpty_iff] using hne
  · intro headers rows out hne hok
    unfold initialize_data at hok
    rw [if_pos (by simpa [List.isEmpty_iff] using hne)] at hok
    exact absurd hok (by simp)
  · intro cols
    unfold check_required_columns
    dsimp only
    constructor
    · intro h c hc
      by_contra hnc
      have : (REQUIRED_COLUMNS.filter (fun c => ¬ cols.contains c)) ≠ [] := by
        intro hnil
        have : c ∈ REQUIRED_COLUMNS.filter (fun c => ¬ cols.contains c) := by
          simp [List.mem_filter, hc, hnc]
        rw [hnil] at this
        exact absurd this (by simp)
      rw [if_neg (by simpa [List.isEmpty_iff] using this)] at h
      exact absurd h (by simp)
    · intro h
      rw [if_pos]
      rw [List.isEmpty_iff, List.filter_eq_nil_iff]
      intro c hc
      simpa using h c hc
  · intro cols missing h c
    unfold check_required_columns at h
    dsimp only at h
    split at h
    · exact absurd h (by simp)
    · injection h with h
      subst h
      simp [List.mem_filter]

/-- Witness for C7 at a concrete table: with both `provider_fees` and
`quadrant` absent, the load aborts with a `KeyError` naming both
missing columns, and both are reported. -/
theorem c7_missing_columns_abort_witness :
    initialize_data c7Headers [] = .error (.keyErr ["quadrant", "provider_fees"]) ∧
    "provider_fees" ∈ missingCols c7Headers ∧
    "quadrant" ∈ missingCols c7Headers := by
  refine ⟨?_, ?_, ?_⟩
  · have h := c7_missing_columns_abort.1 c7Headers [] (by decide)
    rw [show missingCols c7Headers = ["quadrant", "provider_fees"] from by decide] at h
    exact h
  · exact (c7_missing_columns_abort.2.1 c7Headers "provider_fees").mpr
      ⟨by decide, by decide⟩
  · exact (c7_missing_columns_abort.2.1 c7Headers "quadrant").mpr
      ⟨by decide, by decide⟩

/-- C3: the top-providers query returns one row per distinct
`provider_npi` carrying that provider's summed `net_fee`, truncated to
the first 10 groups of the full ranking; rows are strictly ordered by
total descending with the numerically larger NPI first on equal
totals; and every group left out ranks no higher than every returned
row. -/
theorem c3_top_providers_ranking (claims : List StoredClaim) :
    (get_top_providers claims).length = min 10 (groupRows claims).length ∧
    (∀ p : Int × Int, p ∈ get_top_providers claims →
      p.1 ∈ (claims.map (fun c => c.provider_npi)).dedup ∧
      p.2 = totalNetFee claims p.1) ∧
    (get_top_providers claims).Pairwise
      (fun a b => b.2 < a.2 ∨ (a.2 = b.2 ∧ b.1 < a.1)) ∧
    (∀ p : Int × Int, p ∈ get_top_providers claims →
      ∀ n : Int, n ∈ (claims.map (fun c => c.provider_npi)).dedup →
        (n, totalNetFee claims n) ∉ get_top_providers claims →
        provOrder p (n, totalNetFee claims n)) := by
  have hperm := List.perm_insertionSort provOrder (groupRows claims)
  have hsorted := List.sorted_insertionSort provOrder (groupRows claims)
  have hout : get_top_providers claims =
      ((groupRows claims).insertionSort provOrder).take 10 := rfl
  refine ⟨?_, ?_, ?_, ?_⟩
  · rw [hout, List.length_take, hperm.length_eq]
  · intro p hp
    rw [hout] at hp
    have hp2 : p ∈ (groupRows claims).insertionSort provOrder :=
      (List.take_sublist 10 _).subset hp
    have hp3 : p ∈ groupRows claims := hperm.mem_iff.mp hp2
    unfold groupRows at hp3
    obtain ⟨n, hn, heq⟩ := List.mem_map.mp hp3
    cases heq
    exact ⟨hn, rfl⟩
  · have hfst : (groupRows claims).map Prod.fst =
        (claims.map (fun c => c.provider_npi)).dedup := by
      unfold groupRows
      rw [List.map_map]
      exact List.map_id _
    have hnodup1 : ((groupRows claims).map Prod.fst).Nodup := by
      rw [hfst]; exact List.nodup_dedup _
    have hnodup2 :
        (((groupRows claims).insertionSort provOrder).map Prod.fst).Nodup :=
      ((hperm.map Prod.fst).nodup_iff).mpr hnodup1
    have hnodup3 : ((get_top_providers claims).map Prod.fst).Nodup := by
      rw [hout]
      exact List.Nodup.sublist ((List.take_sublist 10 _).map Prod.fst) hnodup2
    have hpair_ne : (get_top_providers claims).Pairwise
        (fun a b => a.1 ≠ b.1) := List.pairwise_map.mp hnodup3
    have hpair_ord : (get_top_providers claims).Pairwise provOrder := by
      rw [hout]
      exact List.Pairwise.sublist (List.take_sublist 10 _) hsorted
    refine (hpair_ord.and hpair_ne).imp ?_
    rintro a b ⟨hord, hne⟩
    rcases hord with h | ⟨heq, hle⟩
    · exact Or.inl h
    · exact Or.inr ⟨heq, lt_of_le_of_ne hle (Ne.symm hne)⟩
  · intro p hp n hn hnot
    rw [hout] at hp hnot
    have hmem : (n, totalNetFee claims n) ∈
        (groupRows claims).insertionSort provOrder := by
      refine hperm.mem_iff.mpr ?_
      unfold groupRows
      exact List.mem_map_of_mem _ hn
    have hsplit := List.take_append_drop 10
      ((groupRows claims).insertionSort provOrder)
    have hpairApp : List.Pairwise provOrder
        (((groupRows claims).insertionSort provOrder).take 10 ++
         ((groupRows claims).insertionSort provOrder).drop 10) := by
      rw [hsplit]; exact hsorted
    obtain ⟨-, -, hcross⟩ := List.pairwise_append.mp hpairApp
    have hmem2 : (n, totalNetFee claims n) ∈
        (((groupRows claims).insertionSort provOrder).take 10 ++
         ((groupRows claims).insertionSort provOrder).drop 10) := by
      rw [hsplit]; exact hmem
    have hdrop : (n, totalNetFee claims n) ∈
        ((groupRows claims).insertionSort provOrder).drop 10 := by
      rcases List.mem_append.mp hmem2 with h | h
      · exact absurd h hnot
      · exact h
    exact hcross p hp _ hdrop

/-- Witness for C3 at a concrete store: with eleven providers the top
group is returned with its exact sum, and the excluded eleventh group
ranks below a returned row. -/
theorem c3_top_providers_ranking_witness :
    ((10 : Int), (10 : Int)) ∈ get_top_providers c3Claims ∧
    provOrder (10, 10) (0, totalNetFee c3Claims 0) ∧
    (10 : Int) = totalNetFee c3Claims 10 :=
  ⟨by decide,
   (c3_top_providers_ranking c3Claims).2.2.2 (10, 10) (by decide) 0
     (by decide) (by decide),
   ((c3_top_providers_ranking c3Claims).2.1 (10, 10) (by decide)).2⟩

end Claims
